import Mathlib

/-!
Verification of a small hotel reservation system.

The system keeps three JSON-file-backed collections (hotels, customers,
reservations).  Entities are validated record by record at load time;
services perform a full load, compute a new collection, and save it back.
This file embeds the data model (`models.py`), the store (`storage.py`) and
the services (`services.py`) as pure Lean functions and proves the
specification's claims about them.
-/

namespace ResSys

instance {ε α : Type} [DecidableEq ε] [DecidableEq α] : DecidableEq (Except ε α) :=
  fun a b =>
  match a, b with
  | .error e, .error f => decidable_of_iff (e = f) (by simp)
  | .error _, .ok _ => isFalse (by simp)
  | .ok _, .error _ => isFalse (by simp)
  | .ok x, .ok y => decidable_of_iff (x = y) (by simp)

/-- removing leading, then trailing, elements satisfying `p` from a list. -/
def stripEnds {α : Type} (p : α → Bool) (l : List α) : List α :=
  ((l.dropWhile p).reverse.dropWhile p).reverse

/-- Python `str.strip()`: remove whitespace from both ends of a string. -/
def pystrip (s : String) : String :=
  ⟨stripEnds Char.isWhitespace s.data⟩

/-- A JSON value as discriminated by the validators: a string, an int, or
anything else (`isinstance` checks in `_require_str` / `_require_int`). -/
inductive JsonVal
  | jstr (s : String)
  | jint (n : Int)
  | jother
deriving DecidableEq

/-- A JSON object (field-bag) seen through the fields the program ever reads
with `data.get(...)`; a missing key reads as `none`, exactly like
`dict.get` returning `None`. -/
structure FieldBag where
  hotel_id : Option JsonVal
  name : Option JsonVal
  location : Option JsonVal
  total_rooms : Option JsonVal
  customer_id : Option JsonVal
  email : Option JsonVal
  reservation_id : Option JsonVal
  status : Option JsonVal
deriving DecidableEq

/-- models._require_str: the value must be a string whose strip is non-empty;
the stripped string is returned. -/
def require_str (value : Option JsonVal) (field_name : String) : Except String String :=
  match value with
  | some (.jstr s) =>
      if pystrip s = "" then .error ("Invalid " ++ field_name)
      else .ok (pystrip s)
  | _ => .error ("Invalid " ++ field_name)

/-- models._require_int: the value must be an int that is at least
`min_value`. -/
def require_int (value : Option JsonVal) (field_name : String) (min_value : Int) :
    Except String Int :=
  match value with
  | some (.jint n) =>
      if n < min_value then .error ("Invalid " ++ field_name)
      else .ok n
  | _ => .error ("Invalid " ++ field_name)

/-- models.Hotel. -/
structure Hotel where
  hotel_id : String
  name : String
  location : String
  total_rooms : Int
deriving DecidableEq

/-- models.Hotel.from_dict: validate the four required fields in order,
failing on the first invalid one. -/
def Hotel.from_dict (data : FieldBag) : Except String Hotel :=
  match require_str data.hotel_id "hotel_id" with
  | .error e => .error e
  | .ok hid =>
    match require_str data.name "name" with
    | .error e => .error e
    | .ok nm =>
      match require_str data.location "location" with
      | .error e => .error e
      | .ok loc =>
        match require_int data.total_rooms "total_rooms" 1 with
        | .error e => .error e
        | .ok tr => .ok ⟨hid, nm, loc, tr⟩

/-- models.Hotel.to_dict. -/
def Hotel.to_dict (h : Hotel) : FieldBag :=
  ⟨some (.jstr h.hotel_id), some (.jstr h.name), some (.jstr h.location),
   some (.jint h.total_rooms), none, none, none, none⟩

/-- models.Customer. -/
structure Customer where
  customer_id : String
  name : String
  email : String
deriving DecidableEq

/-- models.Customer.from_dict. -/
def Customer.from_dict (data : FieldBag) : Except String Customer :=
  match require_str data.customer_id "customer_id" with
  | .error e => .error e
  | .ok cid =>
    match require_str data.name "name" with
    | .error e => .error e
    | .ok nm =>
      match require_str data.email "email" with
      | .error e => .error e
      | .ok em => .ok ⟨cid, nm, em⟩

/-- models.Customer.to_dict. -/
def Customer.to_dict (c : Customer) : FieldBag :=
  ⟨none, some (.jstr c.name), none, none, some (.jstr c.customer_id),
   some (.jstr c.email), none, none⟩

/-- models.Reservation. -/
structure Reservation where
  reservation_id : String
  hotel_id : String
  customer_id : String
  status : String
deriving DecidableEq

/-- models.Reservation.from_dict: the `status` field defaults to the string
"ACTIVE" when absent and must, after stripping, be ACTIVE or CANCELLED. -/
def Reservation.from_dict (data : FieldBag) : Except String Reservation :=
  match require_str data.reservation_id "reservation_id" with
  | .error e => .error e
  | .ok rid =>
    match require_str data.hotel_id "hotel_id" with
    | .error e => .error e
    | .ok hid =>
      match require_str data.customer_id "customer_id" with
      | .error e => .error e
      | .ok cid =>
        match require_str (some (data.status.getD (.jstr "ACTIVE"))) "status" with
        | .error e => .error e
        | .ok st =>
          if st = "ACTIVE" ∨ st = "CANCELLED" then .ok ⟨rid, hid, cid, st⟩
          else .error "Invalid status"

/-- models.Reservation.to_dict. -/
def Reservation.to_dict (r : Reservation) : FieldBag :=
  ⟨some (.jstr r.hotel_id), none, none, none, some (.jstr r.customer_id),
   none, some (.jstr r.reservation_id), some (.jstr r.status)⟩

/-- models.Reservation.is_active. -/
def Reservation.is_active (r : Reservation) : Bool :=
  r.status == "ACTIVE"

/-- models.Reservation.cancelled: a copy with CANCELLED status. -/
def Reservation.cancelled (r : Reservation) : Reservation :=
  ⟨r.reservation_id, r.hotel_id, r.customer_id, "CANCELLED"⟩

/-- One element of the JSON array in a store file: either an object or
some other JSON value (which `load_list` skips). -/
inductive Item
  | dict (bag : FieldBag)
  | nonDict
deriving DecidableEq

/-- The observable states of a backing JSON file: absent, unreadable or
syntactically invalid, valid JSON that is not a list, or a list of items. -/
inductive FileContent
  | missing
  | corrupt
  | notAList
  | items (xs : List Item)
deriving DecidableEq

/-- storage.JsonStore.load_list: empty on a missing, unreadable, invalid or
non-list file; otherwise keep exactly the elements that are objects. -/
def load_list : FileContent → List FieldBag
  | .missing => []
  | .corrupt => []
  | .notAList => []
  | .items xs => xs.filterMap fun it =>
      match it with
      | .dict b => some b
      | .nonDict => none

/-- storage.JsonStore.save_list: overwrite the file with the given list of
objects. -/
def save_list (items : List FieldBag) : FileContent :=
  .items (items.map Item.dict)

/-- storage.JsonStore.load_entities: run the factory on every loaded bag,
dropping each bag the factory rejects. -/
def load_entities {α : Type} (factory : FieldBag → Except String α)
    (fc : FileContent) : List α :=
  (load_list fc).filterMap fun b => (factory b).toOption

/-- services.HotelService.get_hotel: first loaded hotel with the given id. -/
def get_hotel (hf : FileContent) (hotel_id : String) : Option Hotel :=
  (load_entities Hotel.from_dict hf).find? fun h => h.hotel_id == hotel_id

/-- services.HotelService.list_hotels. -/
def list_hotels (hf : FileContent) : List Hotel :=
  load_entities Hotel.from_dict hf

/-- services.HotelService.create_hotel: build the hotel (stripping name and
location, no validation), append it to the loaded collection, save, and
return it.  The fresh uuid is passed in as `freshId`. -/
def create_hotel (hf : FileContent) (name location : String) (total_rooms : Int)
    (freshId : String) : Hotel × FileContent :=
  let hotel : Hotel := ⟨freshId, pystrip name, pystrip location, total_rooms⟩
  let hotels := load_entities Hotel.from_dict hf
  (hotel, save_list ((hotels ++ [hotel]).map Hotel.to_dict))

/-- services.HotelService.delete_hotel. -/
def delete_hotel (hf : FileContent) (hotel_id : String) : Bool × FileContent :=
  let hotels := load_entities Hotel.from_dict hf
  let remaining := hotels.filter fun h => h.hotel_id != hotel_id
  (remaining.length != hotels.length, save_list (remaining.map Hotel.to_dict))

/-- merged name for a partial hotel update: keep the prior name when the
field is unspecified, else strip the given one. -/
def mergeName (h : Hotel) : Option String → String
  | none => h.name
  | some s => pystrip s

/-- merged location for a partial hotel update. -/
def mergeLocation (h : Hotel) : Option String → String
  | none => h.location
  | some s => pystrip s

/-- merged room count for a partial hotel update. -/
def mergeRooms (h : Hotel) : Option Int → Int
  | none => h.total_rooms
  | some k => k

/-- loop body of services.HotelService.modify_hotel: a non-matching hotel is
carried over; a matching one is replaced by the merged hotel when the merge
validates (non-empty name and location, room count at least 1) and carried
over unchanged otherwise.  The boolean is this entry's contribution to
`changed`. -/
def modifyStep (hotel_id : String) (name location : Option String)
    (total_rooms : Option Int) (h : Hotel) : Hotel × Bool :=
  if h.hotel_id ≠ hotel_id then (h, false)
  else if mergeName h name = "" ∨ mergeLocation h location = "" ∨
      mergeRooms h total_rooms < 1 then (h, false)
  else (⟨h.hotel_id, mergeName h name, mergeLocation h location,
        mergeRooms h total_rooms⟩, true)

/-- services.HotelService.modify_hotel: map the loop body over the loaded
collection, save the result, and report whether any entry changed. -/
def modify_hotel (hf : FileContent) (hotel_id : String) (name location : Option String)
    (total_rooms : Option Int) : Bool × FileContent :=
  let hotels := load_entities Hotel.from_dict hf
  let results := hotels.map (modifyStep hotel_id name location total_rooms)
  (results.any (·.2), save_list ((results.map (·.1)).map Hotel.to_dict))

/-- active-reservation count for a hotel:
`sum(1 for r in reservations if r.hotel_id == hotel_id and r.is_active())`. -/
def activeCount (hotel_id : String) (reservations : List Reservation) : Nat :=
  reservations.countP fun r => r.hotel_id == hotel_id && r.is_active

/-- result of a reservation-creation attempt; each failure constructor
corresponds to one printed error of the source. -/
inductive CreateResult
  | customerNotFound
  | hotelNotFound
  | noRoomsAvailable
  | created (r : Reservation)
deriving DecidableEq

/-- services.HotelService.reserve_room: look the hotel up, count its active
reservations, fail when the hotel is absent or full (without writing), else
append a fresh ACTIVE reservation and save. -/
def reserve_room (hf rf : FileContent) (hotel_id customer_id freshId : String) :
    CreateResult × FileContent :=
  match get_hotel hf hotel_id with
  | none => (.hotelNotFound, rf)
  | some hotel =>
    let reservations := load_entities Reservation.from_dict rf
    if hotel.total_rooms ≤ (activeCount hotel_id reservations : Int) then
      (.noRoomsAvailable, rf)
    else
      let reservation : Reservation := ⟨freshId, hotel_id, customer_id, "ACTIVE"⟩
      (.created reservation,
       save_list ((reservations ++ [reservation]).map Reservation.to_dict))

/-- loop body of services.HotelService.cancel_reservation: a matching active
reservation is replaced by its cancelled copy (flagging `changed`); every
other entry is carried over. -/
def cancelStep (reservation_id : String) (r : Reservation) : Reservation × Bool :=
  if r.reservation_id == reservation_id && r.is_active then (r.cancelled, true)
  else (r, false)

/-- services.HotelService.cancel_reservation: map the loop body over the
loaded collection, always save, and report whether any entry changed. -/
def cancel_reservation (rf : FileContent) (reservation_id : String) :
    Bool × FileContent :=
  let reservations := load_entities Reservation.from_dict rf
  let results := reservations.map (cancelStep reservation_id)
  (results.any (·.2), save_list ((results.map (·.1)).map Reservation.to_dict))

/-- services.CustomerService.get_customer. -/
def get_customer (cf : FileContent) (customer_id : String) : Option Customer :=
  (load_entities Customer.from_dict cf).find? fun c => c.customer_id == customer_id

/-- services.CustomerService.create_customer. -/
def create_customer (cf : FileContent) (name email : String) (freshId : String) :
    Customer × FileContent :=
  let customer : Customer := ⟨freshId, pystrip name, pystrip email⟩
  let customers := load_entities Customer.from_dict cf
  (customer, save_list ((customers ++ [customer]).map Customer.to_dict))

/-- services.CustomerService.delete_customer. -/
def delete_customer (cf : FileContent) (customer_id : String) : Bool × FileContent :=
  let customers := load_entities Customer.from_dict cf
  let remaining := customers.filter fun c => c.customer_id != customer_id
  (remaining.length != customers.length, save_list (remaining.map Customer.to_dict))

/-- loop body of services.CustomerService.modify_customer. -/
def customerStep (customer_id : String) (name email : Option String) (c : Customer) :
    Customer × Bool :=
  if c.customer_id ≠ customer_id then (c, false)
  else
    let new_name := match name with | none => c.name | some s => pystrip s
    let new_email := match email with | none => c.email | some s => pystrip s
    if new_name = "" ∨ new_email = "" then (c, false)
    else (⟨c.customer_id, new_name, new_email⟩, true)

/-- services.CustomerService.modify_customer. -/
def modify_customer (cf : FileContent) (customer_id : String)
    (name email : Option String) : Bool × FileContent :=
  let customers := load_entities Customer.from_dict cf
  let results := customers.map (customerStep customer_id name email)
  (results.any (·.2), save_list ((results.map (·.1)).map Customer.to_dict))

/-- services.CustomerService.list_customers. -/
def list_customers (cf : FileContent) : List Customer :=
  load_entities Customer.from_dict cf

/-- services.ReservationService.list_reservations. -/
def list_reservations (rf : FileContent) : List Reservation :=
  load_entities Reservation.from_dict rf

/-- services.ReservationService.create_reservation: the customer lookup is
performed first; only when it succeeds is `reserve_room` consulted. -/
def create_reservation (hf cf rf : FileContent) (hotel_id customer_id freshId : String) :
    CreateResult × FileContent :=
  match get_customer cf customer_id with
  | none => (.customerNotFound, rf)
  | some _ => reserve_room hf rf hotel_id customer_id freshId

/-- the durable state of the whole system: the three backing files. -/
structure SysState where
  hotels : FileContent
  customers : FileContent
  reservations : FileContent
deriving DecidableEq

/-- one invocation of a service operation, with any freshly generated uuid
made explicit as an argument. -/
inductive Op
  | createHotel (name location : String) (total_rooms : Int) (freshId : String)
  | deleteHotel (hotel_id : String)
  | modifyHotel (hotel_id : String) (name location : Option String)
      (total_rooms : Option Int)
  | createCustomer (name email : String) (freshId : String)
  | deleteCustomer (customer_id : String)
  | modifyCustomer (customer_id : String) (name email : Option String)
  | createReservation (hotel_id customer_id freshId : String)
  | cancelReservation (reservation_id : String)
deriving DecidableEq

/-- effect of one operation on the durable state. -/
def runOp (st : SysState) : Op → SysState
  | .createHotel n l t f =>
      ⟨(create_hotel st.hotels n l t f).2, st.customers, st.reservations⟩
  | .deleteHotel hid =>
      ⟨(delete_hotel st.hotels hid).2, st.customers, st.reservations⟩
  | .modifyHotel hid n l t =>
      ⟨(modify_hotel st.hotels hid n l t).2, st.customers, st.reservations⟩
  | .createCustomer n e f =>
      ⟨st.hotels, (create_customer st.customers n e f).2, st.reservations⟩
  | .deleteCustomer cid =>
      ⟨st.hotels, (delete_customer st.customers cid).2, st.reservations⟩
  | .modifyCustomer cid n e =>
      ⟨st.hotels, (modify_customer st.customers cid n e).2, st.reservations⟩
  | .createReservation hid cid f =>
      ⟨st.hotels, st.customers,
       (create_reservation st.hotels st.customers st.reservations hid cid f).2⟩
  | .cancelReservation rid =>
      ⟨st.hotels, st.customers, (cancel_reservation st.reservations rid).2⟩

/-- effect of a sequence of operations, first operation first. -/
def runOps (st : SysState) (ops : List Op) : SysState :=
  ops.foldl runOp st

/-- freshness of the uuid an operation generates, with respect to the stored
reservations: uuids are unique, so a fresh id never collides with the id of
any reservation already in the collection.  Operations that do not create a
reservation carry no constraint. -/
@[reducible] def Op.resFresh (st : SysState) : Op → Prop
  | .createReservation _ _ freshId =>
      ∀ r ∈ load_entities Reservation.from_dict st.reservations,
        pystrip freshId ≠ r.reservation_id
  | _ => True

/-- a string that is non-empty and unchanged by stripping — the shape every
string field of a validated entity has, and the shape of a uuid. -/
abbrev trimmedNE (s : String) : Prop :=
  s ≠ "" ∧ pystrip s = s

/-- a hotel as produced by `Hotel.from_dict`. -/
abbrev Hotel.valid (h : Hotel) : Prop :=
  trimmedNE h.hotel_id ∧ trimmedNE h.name ∧ trimmedNE h.location ∧ 1 ≤ h.total_rooms

/-- a customer as produced by `Customer.from_dict`. -/
abbrev Customer.valid (c : Customer) : Prop :=
  trimmedNE c.customer_id ∧ trimmedNE c.name ∧ trimmedNE c.email

/-- a reservation as produced by `Reservation.from_dict`. -/
abbrev Reservation.valid (r : Reservation) : Prop :=
  trimmedNE r.reservation_id ∧ trimmedNE r.hotel_id ∧ trimmedNE r.customer_id ∧
    (r.status = "ACTIVE" ∨ r.status = "CANCELLED")

/-! Concrete fixtures, used to evaluate the theorems on explicit inputs. -/

/-- a concrete one-room hotel. -/
def hotelW : Hotel := ⟨"h1", "H1", "MTY", 1⟩

/-- a concrete customer. -/
def customerW : Customer := ⟨"c1", "Ricardo", "r@x.com"⟩

/-- a concrete active reservation in `hotelW` by `customerW`. -/
def resActiveW : Reservation := ⟨"r1", "h1", "c1", "ACTIVE"⟩

/-- a concrete cancelled reservation in `hotelW` by `customerW`. -/
def resCancelledW : Reservation := ⟨"r2", "h1", "c1", "CANCELLED"⟩

/-- a hotels file holding exactly `hotelW`. -/
def hotelsW : FileContent := save_list [hotelW.to_dict]

/-- a customers file holding exactly `customerW`. -/
def customersW : FileContent := save_list [customerW.to_dict]

/-- a reservations file holding exactly `resActiveW`. -/
def resFileActiveW : FileContent := save_list [resActiveW.to_dict]

/-- a reservations file holding exactly `resCancelledW`. -/
def resFileCancelledW : FileContent := save_list [resCancelledW.to_dict]

/-! Lemmas about stripping. -/

theorem dropWhile_head?_false {α : Type} {p : α → Bool} {l : List α} {a : α}
    (h : (l.dropWhile p).head? = some a) : p a = false := by
  induction l with
  | nil => simp [List.dropWhile] at h
  | cons b t ih =>
    rw [List.dropWhile_cons] at h
    cases hb : p b
    · rw [hb] at h
      simp only [Bool.false_eq_true, if_false, List.head?_cons, Option.some.injEq] at h
      exact h ▸ hb
    · rw [hb] at h
      simp only [if_true] at h
      exact ih h

theorem dropWhile_eq_self {α : Type} {p : α → Bool} {l : List α}
    (h : ∀ a, l.head? = some a → p a = false) : l.dropWhile p = l := by
  cases l with
  | nil => rfl
  | cons b t => rw [List.dropWhile_cons, h b rfl]; simp

theorem stripEnds_idem {α : Type} (p : α → Bool) (l : List α) :
    stripEnds p (stripEnds p l) = stripEnds p l := by
  have h1 : ((l.dropWhile p).reverse.dropWhile p).reverse.dropWhile p
      = ((l.dropWhile p).reverse.dropWhile p).reverse := by
    apply dropWhile_eq_self
    intro a ha
    have hsplit : (l.dropWhile p).reverse.takeWhile p ++ (l.dropWhile p).reverse.dropWhile p
        = (l.dropWhile p).reverse := List.takeWhile_append_dropWhile ..
    have h3 := congrArg List.reverse hsplit
    rw [List.reverse_append, List.reverse_reverse] at h3
    have hhead : (l.dropWhile p).head? = some a := by
      rw [← h3]
      cases hc : ((l.dropWhile p).reverse.dropWhile p).reverse with
      | nil => rw [hc] at ha; simp at ha
      | cons x xs =>
          rw [hc] at ha
          simp only [List.head?_cons, Option.some.injEq] at ha
          subst ha
          simp
    exact dropWhile_head?_false hhead
  have h2 : ((l.dropWhile p).reverse.dropWhile p).dropWhile p
      = (l.dropWhile p).reverse.dropWhile p := by
    apply dropWhile_eq_self
    intro a ha
    exact dropWhile_head?_false ha
  unfold stripEnds
  rw [h1, List.reverse_reverse, h2]

theorem pystrip_idem (s : String) : pystrip (pystrip s) = pystrip s := by
  show (⟨stripEnds Char.isWhitespace (stripEnds Char.isWhitespace s.data)⟩ : String)
      = ⟨stripEnds Char.isWhitespace s.data⟩
  exact congrArg String.mk (stripEnds_idem ..)

/-! Lemmas about the field validators. -/

theorem require_str_ok {v : Option JsonVal} {fn t : String}
    (h : require_str v fn = .ok t) : t ≠ "" ∧ pystrip t = t := by
  cases v with
  | none => simp [require_str] at h
  | some j =>
    cases j with
    | jstr s =>
      by_cases he : pystrip s = ""
      · simp [require_str, he] at h
      · simp [require_str, he] at h
        subst h
        exact ⟨he, pystrip_idem s⟩
    | jint n => simp [require_str] at h
    | jother => simp [require_str] at h

theorem require_int_ok {v : Option JsonVal} {fn : String} {m n : Int}
    (h : require_int v fn m = .ok n) : m ≤ n := by
  cases v with
  | none => simp [require_int] at h
  | some j =>
    cases j with
    | jstr s => simp [require_int] at h
    | jint k =>
      by_cases hk : k < m
      · simp [require_int, hk] at h
      · simp [require_int, hk] at h
        omega
    | jother => simp [require_int] at h

theorem require_str_of {s : String} (h : trimmedNE s) (fn : String) :
    require_str (some (.jstr s)) fn = .ok s := by
  have h2 : ¬ pystrip s = "" := by rw [h.2]; exact h.1
  simp [require_str, h2, h.2, h.1]

theorem require_int_of {m n : Int} (h : m ≤ n) (fn : String) :
    require_int (some (.jint n)) fn m = .ok n := by
  simp [require_int, Int.not_lt.mpr h]

/-! Every entity produced by a `from_dict` validator is valid, and `from_dict`
inverts `to_dict` on valid entities. -/

theorem hotel_from_dict_valid {bag : FieldBag} {h : Hotel}
    (hh : Hotel.from_dict bag = .ok h) : h.valid := by
  unfold Hotel.from_dict at hh
  split at hh
  · exact absurd hh (by simp)
  rename_i hid he1
  split at hh
  · exact absurd hh (by simp)
  rename_i nm he2
  split at hh
  · exact absurd hh (by simp)
  rename_i loc he3
  split at hh
  · exact absurd hh (by simp)
  rename_i tr he4
  have h1 := require_str_ok he1
  have h2 := require_str_ok he2
  have h3 := require_str_ok he3
  have h4 := require_int_ok he4
  injection hh with hh
  subst hh
  exact ⟨h1, h2, h3, h4⟩

theorem customer_from_dict_valid {bag : FieldBag} {c : Customer}
    (hc : Customer.from_dict bag = .ok c) : c.valid := by
  unfold Customer.from_dict at hc
  split at hc
  · exact absurd hc (by simp)
  rename_i cid he1
  split at hc
  · exact absurd hc (by simp)
  rename_i nm he2
  split at hc
  · exact absurd hc (by simp)
  rename_i em he3
  have h1 := require_str_ok he1
  have h2 := require_str_ok he2
  have h3 := require_str_ok he3
  injection hc with hc
  subst hc
  exact ⟨h1, h2, h3⟩

theorem reservation_from_dict_valid {bag : FieldBag} {r : Reservation}
    (hr : Reservation.from_dict bag = .ok r) : r.valid := by
  unfold Reservation.from_dict at hr
  split at hr
  · exact absurd hr (by simp)
  rename_i rid he1
  split at hr
  · exact absurd hr (by simp)
  rename_i hid he2
  split at hr
  · exact absurd hr (by simp)
  rename_i cid he3
  split at hr
  · exact absurd hr (by simp)
  rename_i st he4
  have h1 := require_str_ok he1
  have h2 := require_str_ok he2
  have h3 := require_str_ok he3
  split at hr
  · rename_i hmem
    injection hr with hr
    subst hr
    exact ⟨h1, h2, h3, hmem⟩
  · exact absurd hr (by simp)

theorem hotel_from_to {h : Hotel} (hv : h.valid) :
    Hotel.from_dict h.to_dict = .ok h := by
  obtain ⟨h1, h2, h3, h4⟩ := hv
  unfold Hotel.from_dict Hotel.to_dict
  rw [require_str_of h1, require_str_of h2, require_str_of h3, require_int_of h4]

theorem customer_from_to {c : Customer} (hv : c.valid) :
    Customer.from_dict c.to_dict = .ok c := by
  obtain ⟨h1, h2, h3⟩ := hv
  unfold Customer.from_dict Customer.to_dict
  rw [require_str_of h1, require_str_of h2, require_str_of h3]

theorem status_trimmedNE {s : String} (h : s = "ACTIVE" ∨ s = "CANCELLED") :
    trimmedNE s := by
  rcases h with h | h <;> rw [h] <;> exact ⟨by decide, by decide⟩

theorem reservation_from_to {r : Reservation} (hv : r.valid) :
    Reservation.from_dict r.to_dict = .ok r := by
  obtain ⟨h1, h2, h3, h4⟩ := hv
  unfold Reservation.from_dict Reservation.to_dict
  rw [show ((⟨some (.jstr r.hotel_id), none, none, none, some (.jstr r.customer_id),
      none, some (.jstr r.reservation_id), some (.jstr r.status)⟩ :
      FieldBag).status.getD (.jstr "ACTIVE")) = .jstr r.status from rfl]
  rw [require_str_of h1, require_str_of h2, require_str_of h3,
    require_str_of (status_trimmedNE h4)]
  change (if r.status = "ACTIVE" ∨ r.status = "CANCELLED" then
      Except.ok (⟨r.reservation_id, r.hotel_id, r.customer_id, r.status⟩ : Reservation)
    else Except.error "Invalid status") = Except.ok r
  rw [if_pos h4]

/-! Lemmas about the store: loading what `save_list` wrote recovers the
saved bags, and `load_entities` recovers valid entities exactly. -/

theorem load_list_save (bags : List FieldBag) : load_list (save_list bags) = bags := by
  unfold save_list
  induction bags with
  | nil => rfl
  | cons b t ih =>
    rw [List.map_cons]
    show b :: load_list (FileContent.items (t.map Item.dict)) = b :: t
    rw [ih]

theorem filterMap_id_of {α : Type} {h : α → Option α} {l : List α}
    (hl : ∀ a ∈ l, h a = some a) : l.filterMap h = l := by
  induction l with
  | nil => rfl
  | cons a t ih =>
    rw [List.filterMap_cons, hl a (by simp)]
    rw [ih fun b hb => hl b (by simp [hb])]

theorem load_entities_save {α : Type} (f : FieldBag → Except String α) (g : α → FieldBag)
    {es : List α} (hok : ∀ e ∈ es, f (g e) = .ok e) :
    load_entities f (save_list (es.map g)) = es := by
  unfold load_entities
  rw [load_list_save, List.filterMap_map]
  exact filterMap_id_of fun e he => by
    show (f (g e)).toOption = some e
    rw [hok e he]
    rfl

theorem load_entities_save_append {α : Type} (f : FieldBag → Except String α)
    (g : α → FieldBag) {es : List α} (x : α) (hok : ∀ e ∈ es, f (g e) = .ok e) :
    load_entities f (save_list ((es ++ [x]).map g))
      = es ++ (f (g x)).toOption.toList := by
  unfold load_entities
  rw [load_list_save, List.map_append, List.filterMap_append]
  rw [show (es.map g).filterMap (fun b => (f b).toOption) = es by
    rw [List.filterMap_map]
    exact filterMap_id_of fun e he => by
      show (f (g e)).toOption = some e
      rw [hok e he]
      rfl]
  rfl

theorem load_entities_mem {α : Type} {f : FieldBag → Except String α} {fc : FileContent}
    {e : α} (he : e ∈ load_entities f fc) : ∃ b ∈ load_list fc, f b = .ok e := by
  unfold load_entities at he
  rw [List.mem_filterMap] at he
  obtain ⟨b, hb, hfb⟩ := he
  refine ⟨b, hb, ?_⟩
  cases hfx : f b with
  | error err => rw [hfx] at hfb; simp [Except.toOption] at hfb
  | ok v =>
    rw [hfx] at hfb
    simp [Except.toOption] at hfb
    rw [hfb]

theorem mem_load_hotel_valid {hf : FileContent} {h : Hotel}
    (hm : h ∈ load_entities Hotel.from_dict hf) : h.valid := by
  obtain ⟨b, _, hb⟩ := load_entities_mem hm
  exact hotel_from_dict_valid hb

theorem mem_load_customer_valid {cf : FileContent} {c : Customer}
    (hm : c ∈ load_entities Customer.from_dict cf) : c.valid := by
  obtain ⟨b, _, hb⟩ := load_entities_mem hm
  exact customer_from_dict_valid hb

theorem mem_load_reservation_valid {rf : FileContent} {r : Reservation}
    (hm : r ∈ load_entities Reservation.from_dict rf) : r.valid := by
  obtain ⟨b, _, hb⟩ := load_entities_mem hm
  exact reservation_from_dict_valid hb

/-! Lemmas about the lookup services. -/

theorem get_hotel_eq_some {hf : FileContent} {hid : String} {h : Hotel}
    (hg : get_hotel hf hid = some h) :
    h ∈ load_entities Hotel.from_dict hf ∧ h.hotel_id = hid := by
  unfold get_hotel at hg
  refine ⟨List.mem_of_find?_eq_some hg, ?_⟩
  have h2 := List.find?_some hg
  simpa using h2

theorem get_customer_eq_some {cf : FileContent} {cid : String} {c : Customer}
    (hg : get_customer cf cid = some c) :
    c ∈ load_entities Customer.from_dict cf ∧ c.customer_id = cid := by
  unfold get_customer at hg
  refine ⟨List.mem_of_find?_eq_some hg, ?_⟩
  have h2 := List.find?_some hg
  simpa using h2

/-! Branch characterizations of the reservation services. -/

theorem create_reservation_customer_none {hf cf rf : FileContent}
    {hotel_id customer_id freshId : String}
    (hc : get_customer cf customer_id = none) :
    create_reservation hf cf rf hotel_id customer_id freshId
      = (.customerNotFound, rf) := by
  unfold create_reservation
  rw [hc]

theorem create_reservation_customer_some {hf cf rf : FileContent}
    {hotel_id customer_id freshId : String} {c : Customer}
    (hc : get_customer cf customer_id = some c) :
    create_reservation hf cf rf hotel_id customer_id freshId
      = reserve_room hf rf hotel_id customer_id freshId := by
  unfold create_reservation
  rw [hc]

theorem reserve_room_hotel_none {hf rf : FileContent}
    {hotel_id customer_id freshId : String}
    (hh : get_hotel hf hotel_id = none) :
    reserve_room hf rf hotel_id customer_id freshId = (.hotelNotFound, rf) := by
  unfold reserve_room
  rw [hh]

theorem reserve_room_full {hf rf : FileContent} {hotel_id customer_id freshId : String}
    {hotel : Hotel} (hh : get_hotel hf hotel_id = some hotel)
    (hcap : hotel.total_rooms
      ≤ (activeCount hotel_id (load_entities Reservation.from_dict rf) : Int)) :
    reserve_room hf rf hotel_id customer_id freshId = (.noRoomsAvailable, rf) := by
  unfold reserve_room
  rw [hh]
  show (if hotel.total_rooms
        ≤ (activeCount hotel_id (load_entities Reservation.from_dict rf) : Int)
      then ((CreateResult.noRoomsAvailable, rf) : CreateResult × FileContent)
      else (.created ⟨freshId, hotel_id, customer_id, "ACTIVE"⟩,
        save_list ((load_entities Reservation.from_dict rf
          ++ [(⟨freshId, hotel_id, customer_id, "ACTIVE"⟩ : Reservation)]).map
          Reservation.to_dict)))
    = (.noRoomsAvailable, rf)
  rw [if_pos hcap]

theorem reserve_room_ok {hf rf : FileContent} {hotel_id customer_id freshId : String}
    {hotel : Hotel} (hh : get_hotel hf hotel_id = some hotel)
    (hcap : ¬ hotel.total_rooms
      ≤ (activeCount hotel_id (load_entities Reservation.from_dict rf) : Int)) :
    reserve_room hf rf hotel_id customer_id freshId
      = (.created ⟨freshId, hotel_id, customer_id, "ACTIVE"⟩,
         save_list ((load_entities Reservation.from_dict rf
            ++ [(⟨freshId, hotel_id, customer_id, "ACTIVE"⟩ : Reservation)]).map
            Reservation.to_dict)) := by
  unfold reserve_room
  rw [hh]
  show (if hotel.total_rooms
        ≤ (activeCount hotel_id (load_entities Reservation.from_dict rf) : Int)
      then ((CreateResult.noRoomsAvailable, rf) : CreateResult × FileContent)
      else (.created ⟨freshId, hotel_id, customer_id, "ACTIVE"⟩,
        save_list ((load_entities Reservation.from_dict rf
          ++ [(⟨freshId, hotel_id, customer_id, "ACTIVE"⟩ : Reservation)]).map
          Reservation.to_dict)))
    = _
  rw [if_neg hcap]

/-- validating the serialization of a freshly constructed ACTIVE reservation:
it is dropped exactly when the stripped fresh id is empty, and otherwise comes
back with the fresh id stripped. -/
theorem reservation_new_toOption {hotel_id customer_id : String} (freshId : String)
    (hhid : trimmedNE hotel_id) (hcid : trimmedNE customer_id) :
    (Reservation.from_dict
        (Reservation.to_dict ⟨freshId, hotel_id, customer_id, "ACTIVE"⟩)).toOption
      = if pystrip freshId = "" then none
        else some ⟨pystrip freshId, hotel_id, customer_id, "ACTIVE"⟩ := by
  have hA : trimmedNE "ACTIVE" := ⟨by decide, by decide⟩
  unfold Reservation.from_dict Reservation.to_dict
  by_cases hfr : pystrip freshId = ""
  · rw [if_pos hfr]
    simp [require_str, hfr, Except.toOption]
  · rw [if_neg hfr]
    rw [show require_str (some (.jstr freshId)) "reservation_id"
        = .ok (pystrip freshId) by simp [require_str, hfr]]
    rw [require_str_of hhid, require_str_of hcid]
    rw [show ((⟨some (.jstr hotel_id), none, none, none, some (.jstr customer_id),
        none, some (.jstr freshId), some (.jstr "ACTIVE")⟩ :
        FieldBag).status.getD (.jstr "ACTIVE")) = .jstr "ACTIVE" from rfl]
    rw [require_str_of hA]
    simp [Except.toOption]

/-! Validity is preserved by the per-entry update steps. -/

theorem Reservation.cancelled_valid {r : Reservation} (hv : r.valid) :
    r.cancelled.valid :=
  ⟨hv.1, hv.2.1, hv.2.2.1, Or.inr rfl⟩

theorem cancelStep_fst_valid {rid : String} {r : Reservation} (hv : r.valid) :
    ((cancelStep rid r).1).valid := by
  unfold cancelStep
  by_cases hc : (r.reservation_id == rid && r.is_active) = true
  · rw [if_pos hc]
    exact Reservation.cancelled_valid hv
  · rw [if_neg hc]
    exact hv

theorem cancelStep_snd_false {rid : String} {r : Reservation}
    (h : (cancelStep rid r).2 = false) : (cancelStep rid r).1 = r := by
  unfold cancelStep at h ⊢
  by_cases hc : (r.reservation_id == rid && r.is_active) = true
  · rw [if_pos hc] at h
    exact absurd h (by simp)
  · rw [if_neg hc]

theorem mergeName_trimmed {h : Hotel} (hv : trimmedNE h.name) (n : Option String) :
    pystrip (mergeName h n) = mergeName h n := by
  cases n with
  | none => exact hv.2
  | some s => exact pystrip_idem s

theorem mergeLocation_trimmed {h : Hotel} (hv : trimmedNE h.location)
    (l : Option String) : pystrip (mergeLocation h l) = mergeLocation h l := by
  cases l with
  | none => exact hv.2
  | some s => exact pystrip_idem s

theorem modifyStep_fst_valid {hid : String} {n l : Option String} {t : Option Int}
    {h : Hotel} (hv : h.valid) : ((modifyStep hid n l t h).1).valid := by
  unfold modifyStep
  by_cases h1 : h.hotel_id ≠ hid
  · rw [if_pos h1]
    exact hv
  · rw [if_neg h1]
    by_cases h2 : mergeName h n = "" ∨ mergeLocation h l = "" ∨ mergeRooms h t < 1
    · rw [if_pos h2]
      exact hv
    · rw [if_neg h2]
      have h2a : ¬ mergeName h n = "" := fun hx => h2 (Or.inl hx)
      have h2b : ¬ mergeLocation h l = "" := fun hx => h2 (Or.inr (Or.inl hx))
      have h2c : ¬ mergeRooms h t < 1 := fun hx => h2 (Or.inr (Or.inr hx))
      exact ⟨hv.1, ⟨h2a, mergeName_trimmed hv.2.1 n⟩,
        ⟨h2b, mergeLocation_trimmed hv.2.2.1 l⟩, Int.not_lt.mp h2c⟩

theorem modifyStep_snd_false {hid : String} {n l : Option String} {t : Option Int}
    {h : Hotel} (hf : (modifyStep hid n l t h).2 = false) :
    (modifyStep hid n l t h).1 = h := by
  unfold modifyStep at hf ⊢
  by_cases h1 : h.hotel_id ≠ hid
  · rw [if_pos h1]
  · rw [if_neg h1] at hf ⊢
    by_cases h2 : mergeName h n = "" ∨ mergeLocation h l = "" ∨ mergeRooms h t < 1
    · rw [if_pos h2]
    · rw [if_neg h2] at hf
      exact absurd hf (by simp)

theorem map_fst_eq_of_not_any {α : Type} {step : α → α × Bool} {l : List α}
    (hstep : ∀ a, (step a).2 = false → (step a).1 = a)
    (hany : (l.map step).any (·.2) = false) :
    (l.map step).map (·.1) = l := by
  induction l with
  | nil => rfl
  | cons a t ih =>
    simp only [List.map_cons, List.any_cons, Bool.or_eq_false_iff] at hany ⊢
    rw [hstep a hany.1, ih hany.2]

/-! Reload lemmas: what a service's save looks like when loaded again. -/

theorem cancel_reload (rf : FileContent) (rid : String) :
    load_entities Reservation.from_dict (cancel_reservation rf rid).2
      = ((load_entities Reservation.from_dict rf).map (cancelStep rid)).map (·.1) := by
  show load_entities Reservation.from_dict
      (save_list ((((load_entities Reservation.from_dict rf).map
        (cancelStep rid)).map (·.1)).map Reservation.to_dict)) = _
  apply load_entities_save
  intro e he
  obtain ⟨pr, hpr, rfl⟩ := List.mem_map.mp he
  obtain ⟨r, hr, rfl⟩ := List.mem_map.mp hpr
  exact reservation_from_to (cancelStep_fst_valid (mem_load_reservation_valid hr))

theorem modify_reload (hf : FileContent) (hid : String) (n l : Option String)
    (t : Option Int) :
    load_entities Hotel.from_dict (modify_hotel hf hid n l t).2
      = ((load_entities Hotel.from_dict hf).map (modifyStep hid n l t)).map (·.1) := by
  show load_entities Hotel.from_dict
      (save_list ((((load_entities Hotel.from_dict hf).map
        (modifyStep hid n l t)).map (·.1)).map Hotel.to_dict)) = _
  apply load_entities_save
  intro e he
  obtain ⟨pr, hpr, rfl⟩ := List.mem_map.mp he
  obtain ⟨h, hh, rfl⟩ := List.mem_map.mp hpr
  exact hotel_from_to (modifyStep_fst_valid (mem_load_hotel_valid hh))

theorem create_reload {hf cf rf : FileContent} {hid cid fresh : String}
    {hotel : Hotel} {c : Customer}
    (hcust : get_customer cf cid = some c)
    (hh : get_hotel hf hid = some hotel)
    (hcap : ¬ hotel.total_rooms
      ≤ (activeCount hid (load_entities Reservation.from_dict rf) : Int)) :
    load_entities Reservation.from_dict (create_reservation hf cf rf hid cid fresh).2
      = load_entities Reservation.from_dict rf
        ++ (if pystrip fresh = "" then []
            else [(⟨pystrip fresh, hid, cid, "ACTIVE"⟩ : Reservation)]) := by
  have hhot := get_hotel_eq_some hh
  have hhid : trimmedNE hid := hhot.2 ▸ (mem_load_hotel_valid hhot.1).1
  have hcst := get_customer_eq_some hcust
  have hcid : trimmedNE cid := hcst.2 ▸ (mem_load_customer_valid hcst.1).1
  rw [create_reservation_customer_some hcust, reserve_room_ok hh hcap]
  show load_entities Reservation.from_dict
      (save_list ((load_entities Reservation.from_dict rf
        ++ [(⟨fresh, hid, cid, "ACTIVE"⟩ : Reservation)]).map Reservation.to_dict)) = _
  rw [load_entities_save_append Reservation.from_dict Reservation.to_dict _
    (fun e he => reservation_from_to (mem_load_reservation_valid he))]
  congr 1
  rw [reservation_new_toOption fresh hhid hcid]
  by_cases hfr : pystrip fresh = "" <;> simp [hfr]

/-! Counting lemmas for the capacity invariant. -/

theorem activeCount_append (H : String) (xs ys : List Reservation) :
    activeCount H (xs ++ ys) = activeCount H xs + activeCount H ys := by
  unfold activeCount
  exact List.countP_append ..

theorem activeCount_cancel_le (H rid : String) (rs : List Reservation) :
    activeCount H ((rs.map (cancelStep rid)).map (·.1)) ≤ activeCount H rs := by
  induction rs with
  | nil => exact Nat.le_refl 0
  | cons r t ih =>
    simp only [List.map_cons]
    unfold activeCount at ih ⊢
    rw [List.countP_cons, List.countP_cons]
    have hle : (if ((cancelStep rid r).1.hotel_id == H && (cancelStep rid r).1.is_active)
          = true then 1 else 0)
        ≤ (if (r.hotel_id == H && r.is_active) = true then 1 else 0) := by
      unfold cancelStep
      by_cases hc : (r.reservation_id == rid && r.is_active) = true
      · rw [if_pos hc]
        have hact : (r.cancelled.hotel_id == H && r.cancelled.is_active) = false := by
          have h1 : r.cancelled.is_active = false := rfl
          rw [h1, Bool.and_false]
        simp [hact]
      · rw [if_neg hc]
    omega

theorem cancel_count_le {rf : FileContent} {H rid : String} {N : Int}
    (h0 : (activeCount H (load_entities Reservation.from_dict rf) : Int) ≤ N) :
    (activeCount H (load_entities Reservation.from_dict
      (cancel_reservation rf rid).2) : Int) ≤ N := by
  rw [cancel_reload]
  have h1 := activeCount_cancel_le H rid (load_entities Reservation.from_dict rf)
  have h2 : (activeCount H (((load_entities Reservation.from_dict rf).map
      (cancelStep rid)).map (·.1)) : Int)
      ≤ (activeCount H (load_entities Reservation.from_dict rf) : Int) := by
    exact_mod_cast h1
  exact le_trans h2 h0

theorem create_count_le {hf cf rf : FileContent} {hid cid fresh H : String} {N : Int}
    (hH : ∀ h, get_hotel hf H = some h → h.total_rooms = N)
    (h0 : (activeCount H (load_entities Reservation.from_dict rf) : Int) ≤ N) :
    (activeCount H (load_entities Reservation.from_dict
      (create_reservation hf cf rf hid cid fresh).2) : Int) ≤ N := by
  cases hc : get_customer cf cid with
  | none => rw [create_reservation_customer_none hc]; exact h0
  | some c =>
    cases hh : get_hotel hf hid with
    | none => rw [create_reservation_customer_some hc, reserve_room_hotel_none hh]; exact h0
    | some hotel =>
      by_cases hcap : hotel.total_rooms
          ≤ (activeCount hid (load_entities Reservation.from_dict rf) : Int)
      · rw [create_reservation_customer_some hc, reserve_room_full hh hcap]; exact h0
      · rw [create_reload hc hh hcap]
        by_cases hfr : pystrip fresh = ""
        · rw [if_pos hfr]
          simpa [activeCount] using h0
        · rw [if_neg hfr, activeCount_append]
          by_cases hHH : hid = H
          · subst hHH
            have hTot : hotel.total_rooms = N := hH hotel hh
            rw [hTot] at hcap
            have h1 : activeCount hid
                [(⟨pystrip fresh, hid, cid, "ACTIVE"⟩ : Reservation)] = 1 := by
              simp [activeCount, Reservation.is_active]
            rw [h1]
            push_cast
            omega
          · have h1 : activeCount H
                [(⟨pystrip fresh, hid, cid, "ACTIVE"⟩ : Reservation)] = 0 := by
              simp [activeCount, Reservation.is_active, hHH]
            rw [h1]
            simpa using h0

/-! Characterizations of the cancellation loop body. -/

theorem cancelStep_snd (rid : String) (r : Reservation) :
    (cancelStep rid r).2 = (r.reservation_id == rid && r.is_active) := by
  unfold cancelStep
  cases hb : (r.reservation_id == rid && r.is_active) <;> simp [hb]

theorem cancelStep_fst_eq (rid : String) (r : Reservation) :
    (cancelStep rid r).1
      = if r.reservation_id = rid ∧ r.status = "ACTIVE" then r.cancelled else r := by
  unfold cancelStep Reservation.is_active
  by_cases hc : r.reservation_id = rid ∧ r.status = "ACTIVE"
  · rw [if_pos (by simp [hc.1, hc.2]), if_pos hc]
  · rw [if_neg (by simp only [Bool.and_eq_true, beq_iff_eq]; exact hc), if_neg hc]

/-! No operation resurrects a cancelled reservation. -/

theorem cancel_no_active_id {rf : FileContent} {rid rid' : String}
    (hc : ∀ r ∈ load_entities Reservation.from_dict rf,
      r.reservation_id = rid → r.status = "CANCELLED") :
    ∀ r' ∈ load_entities Reservation.from_dict (cancel_reservation rf rid').2,
      r'.reservation_id = rid → r'.status = "CANCELLED" := by
  rw [cancel_reload]
  intro r' hr' hrid
  obtain ⟨pr, hpr, rfl⟩ := List.mem_map.mp hr'
  obtain ⟨r, hr, rfl⟩ := List.mem_map.mp hpr
  by_cases hcond : (r.reservation_id == rid' && r.is_active) = true
  · show ((cancelStep rid' r).1).status = "CANCELLED"
    unfold cancelStep
    rw [if_pos hcond]
    rfl
  · have he : (cancelStep rid' r).1 = r := by
      unfold cancelStep
      rw [if_neg hcond]
    rw [he] at hrid ⊢
    exact hc r hr hrid

theorem create_no_active_id {hf cf rf : FileContent} {hid cid fresh rid : String}
    (hc : ∀ r ∈ load_entities Reservation.from_dict rf,
      r.reservation_id = rid → r.status = "CANCELLED")
    (hfr : ∀ r ∈ load_entities Reservation.from_dict rf,
      pystrip fresh ≠ r.reservation_id)
    (hex : ∃ r ∈ load_entities Reservation.from_dict rf, r.reservation_id = rid) :
    ∀ r' ∈ load_entities Reservation.from_dict
        (create_reservation hf cf rf hid cid fresh).2,
      r'.reservation_id = rid → r'.status = "CANCELLED" := by
  obtain ⟨r0, hr0, hr0id⟩ := hex
  have hne : pystrip fresh ≠ rid := hr0id ▸ hfr r0 hr0
  cases hcu : get_customer cf cid with
  | none =>
    rw [create_reservation_customer_none hcu]
    exact hc
  | some c =>
    cases hh : get_hotel hf hid with
    | none =>
      rw [create_reservation_customer_some hcu, reserve_room_hotel_none hh]
      exact hc
    | some hotel =>
      by_cases hcap : hotel.total_rooms
          ≤ (activeCount hid (load_entities Reservation.from_dict rf) : Int)
      · rw [create_reservation_customer_some hcu, reserve_room_full hh hcap]
        exact hc
      · rw [create_reload hcu hh hcap]
        intro r' hr' hrid
        rw [List.mem_append] at hr'
        rcases hr' with hr' | hr'
        · exact hc r' hr' hrid
        · by_cases hfre : pystrip fresh = ""
          · rw [if_pos hfre] at hr'
            simp at hr'
          · rw [if_neg hfre] at hr'
            simp at hr'
            subst hr'
            exact absurd hrid hne

/-! Characterization of failed updates. -/

theorem modifyStep_snd_of_invalid {hid : String} {n l : Option String} {t : Option Int}
    {h : Hotel}
    (hinv : h.hotel_id = hid →
      (mergeName h n = "" ∨ mergeLocation h l = "" ∨ mergeRooms h t < 1)) :
    (modifyStep hid n l t h).2 = false := by
  unfold modifyStep
  by_cases h1 : h.hotel_id ≠ hid
  · rw [if_pos h1]
  · rw [if_neg h1, if_pos (hinv (not_ne_iff.mp h1))]

/-! Invalid hotels are dropped at load time. -/

theorem hotel_bad_toOption {name location fresh : String} {rooms : Int}
    (hbad : rooms = 0 ∨ pystrip name = "" ∨ pystrip location = "") :
    (Hotel.from_dict
      (Hotel.to_dict ⟨fresh, pystrip name, pystrip location, rooms⟩)).toOption
      = none := by
  have hE : pystrip "" = "" := rfl
  unfold Hotel.from_dict Hotel.to_dict
  cases h1 : require_str (some (.jstr fresh)) "hotel_id" with
  | error e => rfl
  | ok hid =>
    cases h2 : require_str (some (.jstr (pystrip name))) "name" with
    | error e => rfl
    | ok nm =>
      cases h3 : require_str (some (.jstr (pystrip location))) "location" with
      | error e => rfl
      | ok loc =>
        rcases hbad with hb | hb | hb
        · subst hb
          rw [show require_int (some (.jint 0)) "total_rooms" 1
              = .error ("Invalid " ++ "total_rooms") by simp [require_int]]
          rfl
        · rw [hb] at h2
          simp [require_str, hE] at h2
        · rw [hb] at h3
          simp [require_str, hE] at h3

theorem hotel_bad_not_valid {name location fresh : String} {rooms : Int}
    (hbad : rooms = 0 ∨ pystrip name = "" ∨ pystrip location = "") :
    ¬ (⟨fresh, pystrip name, pystrip location, rooms⟩ : Hotel).valid := by
  intro hv
  rcases hbad with hb | hb | hb
  · have := hv.2.2.2
    rw [show (⟨fresh, pystrip name, pystrip location, rooms⟩ : Hotel).total_rooms
        = rooms from rfl, hb] at this
    omega
  · exact hv.2.1.1 hb
  · exact hv.2.2.1.1 hb

theorem any_map_pair {α β : Type} (f : α → β × Bool) (l : List α) :
    (l.map f).any (·.2) = l.any fun a => (f a).2 := by
  induction l with
  | nil => rfl
  | cons a t ih => simp [ih]

/-- running any sequence of reservation-core operations keeps the active
count of a hotel below its room count, because each step either leaves the
reservation file alone, only cancels entries, or checks capacity before
appending. -/
theorem runOps_res_count_le (hf cf : FileContent) (H : String) (N : Int)
    (hH : ∀ h, get_hotel hf H = some h → h.total_rooms = N) :
    ∀ (ops : List Op) (rf : FileContent),
      (∀ op ∈ ops, (∃ hid cid f, op = Op.createReservation hid cid f)
        ∨ (∃ rid, op = Op.cancelReservation rid)) →
      (activeCount H (load_entities Reservation.from_dict rf) : Int) ≤ N →
      (activeCount H (load_entities Reservation.from_dict
        (runOps ⟨hf, cf, rf⟩ ops).reservations) : Int) ≤ N := by
  intro ops
  induction ops with
  | nil =>
    intro rf _ h0
    exact h0
  | cons op rest ih =>
    intro rf hops h0
    have hop := hops op (List.mem_cons_self ..)
    have hrest := fun o ho => hops o (List.mem_cons_of_mem _ ho)
    rcases hop with ⟨hid, cid, f, rfl⟩ | ⟨rid, rfl⟩
    · show (activeCount H (load_entities Reservation.from_dict
        (runOps ⟨hf, cf, (create_reservation hf cf rf hid cid f).2⟩
          rest).reservations) : Int) ≤ N
      exact ih _ hrest (create_count_le hH h0)
    · show (activeCount H (load_entities Reservation.from_dict
        (runOps ⟨hf, cf, (cancel_reservation rf rid).2⟩ rest).reservations) : Int) ≤ N
      exact ih _ hrest (cancel_count_le h0)

/-! The claims. -/

/-- C3: when the customer id does not resolve to an existing customer,
create_reservation fails with the customer-not-found signal and leaves the
reservation file untouched, whatever the hotels file holds — so even when the
hotel is nonexistent or full.  The customer check comes first. -/
theorem c3_customer_checked_first (hf cf rf : FileContent)
    (hotel_id customer_id freshId : String)
    (hcust : get_customer cf customer_id = none) :
    create_reservation hf cf rf hotel_id customer_id freshId
      = (.customerNotFound, rf) :=
  create_reservation_customer_none hcust

/-- C3 witness: a reservation against an unknown customer fails with the
customer-not-found signal even though the hotel is also at capacity. -/
theorem c3_customer_checked_first_witness :
    get_customer FileContent.missing "cX" = none
    ∧ create_reservation hotelsW FileContent.missing resFileActiveW "h1" "cX" "r9"
        = (.customerNotFound, resFileActiveW) :=
  ⟨by decide,
   c3_customer_checked_first hotelsW .missing resFileActiveW "h1" "cX" "r9" (by decide)⟩

/-- C7: loading yields the empty collection when the backing file is missing,
unreadable, or holds something other than a list; on a list it yields exactly
the records that pass per-record validation, dropping non-object elements and
validator-rejected records individually without aborting the load. -/
theorem c7_load_tolerance {α : Type} (f : FieldBag → Except String α) :
    load_entities f .missing = []
    ∧ load_entities f .corrupt = []
    ∧ load_entities f .notAList = []
    ∧ ∀ (xs : List Item) (a : α),
        a ∈ load_entities f (.items xs)
          ↔ ∃ b, Item.dict b ∈ xs ∧ f b = .ok a := by
  refine ⟨rfl, rfl, rfl, ?_⟩
  intro xs a
  constructor
  · intro ha
    obtain ⟨b, hb, hfb⟩ := load_entities_mem ha
    refine ⟨b, ?_, hfb⟩
    unfold load_list at hb
    rw [List.mem_filterMap] at hb
    obtain ⟨it, hit, hmatch⟩ := hb
    cases it with
    | dict b' =>
      simp at hmatch
      rw [← hmatch]
      exact hit
    | nonDict => simp at hmatch
  · rintro ⟨b, hb, hfb⟩
    unfold load_entities
    rw [List.mem_filterMap]
    refine ⟨b, ?_, by rw [hfb]; rfl⟩
    unfold load_list
    rw [List.mem_filterMap]
    exact ⟨Item.dict b, hb, rfl⟩

/-- C7 witness: a file holding one valid hotel record, one non-object
element, and one record missing its room count loads as exactly the valid
hotel. -/
theorem c7_load_tolerance_witness :
    load_entities Hotel.from_dict (.items [Item.dict hotelW.to_dict, Item.nonDict,
      Item.dict (⟨some (.jstr "h2"), some (.jstr "H2"), some (.jstr "GDL"),
        none, none, none, none, none⟩ : FieldBag)]) = [hotelW]
    ∧ load_entities Hotel.from_dict .missing = [] := by
  have h := c7_load_tolerance Hotel.from_dict
  exact ⟨by decide, h.1⟩

/-- C8: for valid entities, `from_dict` inverts `to_dict` field for field,
so saving a collection of valid hotels, customers, or reservations and
loading it back yields exactly the entities saved. -/
theorem c8_roundtrip (hs : List Hotel) (cs : List Customer) (rs : List Reservation)
    (hh : ∀ h ∈ hs, h.valid) (hc : ∀ c ∈ cs, c.valid) (hr : ∀ r ∈ rs, r.valid) :
    load_entities Hotel.from_dict (save_list (hs.map Hotel.to_dict)) = hs
    ∧ load_entities Customer.from_dict (save_list (cs.map Customer.to_dict)) = cs
    ∧ load_entities Reservation.from_dict (save_list (rs.map Reservation.to_dict)) = rs
    ∧ (∀ h : Hotel, h.valid → Hotel.from_dict h.to_dict = .ok h)
    ∧ (∀ c : Customer, c.valid → Customer.from_dict c.to_dict = .ok c)
    ∧ (∀ r : Reservation, r.valid → Reservation.from_dict r.to_dict = .ok r) :=
  ⟨load_entities_save _ _ fun h hm => hotel_from_to (hh h hm),
   load_entities_save _ _ fun c hm => customer_from_to (hc c hm),
   load_entities_save _ _ fun r hm => reservation_from_to (hr r hm),
   fun _ hv => hotel_from_to hv,
   fun _ hv => customer_from_to hv,
   fun _ hv => reservation_from_to hv⟩

/-- C8 witness: a concrete valid hotel, customer, and reservation survive the
save/load round-trip unchanged. -/
theorem c8_roundtrip_witness :
    (∀ h ∈ [hotelW], h.valid)
    ∧ load_entities Hotel.from_dict (save_list ([hotelW].map Hotel.to_dict)) = [hotelW]
    ∧ load_entities Customer.from_dict
        (save_list ([customerW].map Customer.to_dict)) = [customerW]
    ∧ load_entities Reservation.from_dict
        (save_list ([resActiveW].map Reservation.to_dict)) = [resActiveW] := by
  have h := c8_roundtrip [hotelW] [customerW] [resActiveW]
    (by decide) (by decide) (by decide)
  exact ⟨by decide, h.1, h.2.1, h.2.2.1⟩

/-- C5: cancel_reservation succeeds exactly when the loaded collection holds a
reservation with the given id whose status is ACTIVE; a missing id and an
already-cancelled entry both yield the same false signal; and the saved
collection is the loaded one with exactly the matching active entries
transitioned to CANCELLED and every other entry unchanged. -/
theorem c5_cancel_semantics (rf : FileContent) (rid : String) :
    ((cancel_reservation rf rid).1 = true
      ↔ ∃ r ∈ load_entities Reservation.from_dict rf,
          r.reservation_id = rid ∧ r.status = "ACTIVE")
    ∧ load_entities Reservation.from_dict (cancel_reservation rf rid).2
        = (load_entities Reservation.from_dict rf).map
            fun r => if r.reservation_id = rid ∧ r.status = "ACTIVE"
              then r.cancelled else r := by
  constructor
  · show ((load_entities Reservation.from_dict rf).map (cancelStep rid)).any (·.2)
        = true ↔ _
    rw [any_map_pair, List.any_eq_true]
    constructor
    · rintro ⟨r, hr, hp⟩
      have hp' : (cancelStep rid r).2 = true := hp
      rw [cancelStep_snd] at hp'
      simp only [Bool.and_eq_true, beq_iff_eq, Reservation.is_active] at hp'
      exact ⟨r, hr, hp'⟩
    · rintro ⟨r, hr, h1, h2⟩
      refine ⟨r, hr, ?_⟩
      show (cancelStep rid r).2 = true
      rw [cancelStep_snd]
      simp [h1, Reservation.is_active, h2]
  · rw [cancel_reload, List.map_map]
    apply List.map_congr_left
    intro r _
    exact cancelStep_fst_eq rid r

/-- C5 witness: cancelling the one active reservation succeeds and turns
exactly that entry to CANCELLED; cancelling an unknown id reports false. -/
theorem c5_cancel_semantics_witness :
    (cancel_reservation resFileActiveW "r1").1 = true
    ∧ load_entities Reservation.from_dict (cancel_reservation resFileActiveW "r1").2
        = [resActiveW.cancelled] := by
  have h := c5_cancel_semantics resFileActiveW "r1"
  refine ⟨h.1.mpr ⟨resActiveW, by decide, rfl, rfl⟩, ?_⟩
  rw [h.2]
  decide

/-- C6: in a partial hotel update, unspecified fields keep their prior
values; when the merged result fails validation (empty stripped name or
location, or a room count below 1) for every entry carrying the id, the
operation reports false and the saved collection loads back exactly as
before — in particular updating total_rooms to 0 leaves the stored hotel
unchanged. -/
theorem c6_modify_invalid_rejected (hf : FileContent) (hid : String)
    (n l : Option String) (t : Option Int)
    (hinv : ∀ h ∈ load_entities Hotel.from_dict hf, h.hotel_id = hid →
      (mergeName h n = "" ∨ mergeLocation h l = "" ∨ mergeRooms h t < 1)) :
    (modify_hotel hf hid n l t).1 = false
    ∧ load_entities Hotel.from_dict (modify_hotel hf hid n l t).2
        = load_entities Hotel.from_dict hf
    ∧ (∀ h : Hotel, mergeName h none = h.name ∧ mergeLocation h none = h.location
        ∧ mergeRooms h none = h.total_rooms) := by
  have hany : ((load_entities Hotel.from_dict hf).map
      (modifyStep hid n l t)).any (·.2) = false := by
    rw [any_map_pair, List.any_eq_false]
    intro h hm
    show (modifyStep hid n l t h).2 ≠ true
    rw [modifyStep_snd_of_invalid (hinv h hm)]
    exact Bool.false_ne_true
  refine ⟨hany, ?_, fun h => ⟨rfl, rfl, rfl⟩⟩
  rw [modify_reload]
  exact map_fst_eq_of_not_any (fun h hh => modifyStep_snd_false hh) hany

/-- C6 witness: updating the stored hotel's total_rooms to 0 is rejected and
the stored value stays 1. -/
theorem c6_modify_invalid_rejected_witness :
    (modify_hotel hotelsW "h1" none none (some 0)).1 = false
    ∧ load_entities Hotel.from_dict (modify_hotel hotelsW "h1" none none (some 0)).2
        = [hotelW] := by
  have h := c6_modify_invalid_rejected hotelsW "h1" none none (some 0) (by decide)
  refine ⟨h.1, ?_⟩
  rw [h.2.1]
  decide

/-- C10: cancel_reservation and modify_hotel write the store back even when
they report failure; the file then holds exactly the serializations of the
valid entities that were loaded — raw records that failed validation at load
time are removed from durable storage while every valid entity is kept
unchanged. -/
theorem c10_failed_write_normalizes (rf hf : FileContent) (rid hid : String)
    (n l : Option String) (t : Option Int) :
    ((cancel_reservation rf rid).1 = false →
      (cancel_reservation rf rid).2
        = save_list ((load_entities Reservation.from_dict rf).map Reservation.to_dict)
      ∧ load_entities Reservation.from_dict (cancel_reservation rf rid).2
          = load_entities Reservation.from_dict rf
      ∧ load_list (cancel_reservation rf rid).2
          = (load_entities Reservation.from_dict rf).map Reservation.to_dict)
    ∧ ((modify_hotel hf hid n l t).1 = false →
      (modify_hotel hf hid n l t).2
        = save_list ((load_entities Hotel.from_dict hf).map Hotel.to_dict)
      ∧ load_entities Hotel.from_dict (modify_hotel hf hid n l t).2
          = load_entities Hotel.from_dict hf
      ∧ load_list (modify_hotel hf hid n l t).2
          = (load_entities Hotel.from_dict hf).map Hotel.to_dict) := by
  constructor
  · intro hfail
    have hupd : ((load_entities Reservation.from_dict rf).map (cancelStep rid)).map (·.1)
        = load_entities Reservation.from_dict rf :=
      map_fst_eq_of_not_any (fun r hr => cancelStep_snd_false hr) hfail
    refine ⟨?_, ?_, ?_⟩
    · show save_list ((((load_entities Reservation.from_dict rf).map
          (cancelStep rid)).map (·.1)).map Reservation.to_dict) = _
      rw [hupd]
    · rw [cancel_reload, hupd]
    · show load_list (save_list ((((load_entities Reservation.from_dict rf).map
          (cancelStep rid)).map (·.1)).map Reservation.to_dict)) = _
      rw [hupd, load_list_save]
  · intro hfail
    have hupd : ((load_entities Hotel.from_dict hf).map (modifyStep hid n l t)).map (·.1)
        = load_entities Hotel.from_dict hf :=
      map_fst_eq_of_not_any (fun h hh => modifyStep_snd_false hh) hfail
    refine ⟨?_, ?_, ?_⟩
    · show save_list ((((load_entities Hotel.from_dict hf).map
          (modifyStep hid n l t)).map (·.1)).map Hotel.to_dict) = _
      rw [hupd]
    · rw [modify_reload, hupd]
    · show load_list (save_list ((((load_entities Hotel.from_dict hf).map
          (modifyStep hid n l t)).map (·.1)).map Hotel.to_dict)) = _
      rw [hupd, load_list_save]

/-- C10 witness: a failing cancel against a corrupt reservations file still
overwrites it with the (empty) list of valid loaded entities. -/
theorem c10_failed_write_normalizes_witness :
    (cancel_reservation FileContent.corrupt "zz").1 = false
    ∧ (cancel_reservation FileContent.corrupt "zz").2 = save_list [] := by
  have h := (c10_failed_write_normalizes FileContent.corrupt FileContent.missing
    "zz" "h1" none none none).1 (by decide)
  exact ⟨by decide, h.1⟩

/-- C2: with an existing hotel and customer, reservation creation fails with
NoRoomsAvailable and leaves the reservation file untouched when the active
count for the hotel has reached its room count; otherwise it returns a new
ACTIVE reservation carrying the fresh id, persists the loaded collection plus
exactly that one appended entry, and the fresh id differs from every stored
reservation id. -/
theorem c2_reserve_semantics (hf cf rf : FileContent)
    (hotel_id customer_id freshId : String) (hotel : Hotel) (c : Customer)
    (hh : get_hotel hf hotel_id = some hotel)
    (hcu : get_customer cf customer_id = some c)
    (hfr : trimmedNE freshId)
    (hnew : ∀ r ∈ load_entities Reservation.from_dict rf,
      r.reservation_id ≠ freshId) :
    (hotel.total_rooms
        ≤ (activeCount hotel_id (load_entities Reservation.from_dict rf) : Int) →
      create_reservation hf cf rf hotel_id customer_id freshId
        = (.noRoomsAvailable, rf))
    ∧ ((activeCount hotel_id (load_entities Reservation.from_dict rf) : Int)
        < hotel.total_rooms →
      create_reservation hf cf rf hotel_id customer_id freshId
        = (.created ⟨freshId, hotel_id, customer_id, "ACTIVE"⟩,
           save_list ((load_entities Reservation.from_dict rf
             ++ [(⟨freshId, hotel_id, customer_id, "ACTIVE"⟩ : Reservation)]).map
             Reservation.to_dict))
      ∧ load_entities Reservation.from_dict
          (create_reservation hf cf rf hotel_id customer_id freshId).2
          = load_entities Reservation.from_dict rf
            ++ [(⟨freshId, hotel_id, customer_id, "ACTIVE"⟩ : Reservation)]
      ∧ ∀ r ∈ load_entities Reservation.from_dict rf,
          r.reservation_id
            ≠ (⟨freshId, hotel_id, customer_id, "ACTIVE"⟩ : Reservation).reservation_id) := by
  constructor
  · intro hcap
    rw [create_reservation_customer_some hcu, reserve_room_full hh hcap]
  · intro hlt
    have hcap : ¬ hotel.total_rooms
        ≤ (activeCount hotel_id (load_entities Reservation.from_dict rf) : Int) :=
      not_le.mpr hlt
    refine ⟨?_, ?_, hnew⟩
    · rw [create_reservation_customer_some hcu, reserve_room_ok hh hcap]
    · rw [create_reload hcu hh hcap,
        if_neg fun hx => hfr.1 (hfr.2.symm.trans hx), hfr.2]

/-- C2 witness: with one hotel of one room and no reservations, creation
succeeds and stores the single new ACTIVE entry; with one active reservation
already stored, creation fails with NoRoomsAvailable and the file is kept. -/
theorem c2_reserve_semantics_witness :
    create_reservation hotelsW customersW FileContent.missing "h1" "c1" "r1"
      = (.created resActiveW, resFileActiveW)
    ∧ create_reservation hotelsW customersW resFileActiveW "h1" "c1" "r9"
      = (.noRoomsAvailable, resFileActiveW) := by
  constructor
  · exact ((c2_reserve_semantics hotelsW customersW .missing "h1" "c1" "r1"
      hotelW customerW (by decide) (by decide) (by decide) (by decide)).2
      (by decide)).1
  · exact (c2_reserve_semantics hotelsW customersW resFileActiveW "h1" "c1" "r9"
      hotelW customerW (by decide) (by decide) (by decide) (by decide)).1
      (by decide)

/-- C9: create_hotel validates nothing — given total_rooms = 0 or a
whitespace-only name or location it still constructs, persists, and returns
the hotel carrying those values; but validation drops that record on every
later load, so it never appears in list_hotels, get_hotel never returns it,
and reserving a room against its id fails with hotel-not-found. -/
theorem c9_create_hotel_no_validation (hf rf : FileContent)
    (name location : String) (total_rooms : Int)
    (freshId customer_id fresh2 : String)
    (hbad : total_rooms = 0 ∨ pystrip name = "" ∨ pystrip location = "") :
    (create_hotel hf name location total_rooms freshId).1
      = ⟨freshId, pystrip name, pystrip location, total_rooms⟩
    ∧ (create_hotel hf name location total_rooms freshId).2
        = save_list ((load_entities Hotel.from_dict hf
            ++ [(⟨freshId, pystrip name, pystrip location, total_rooms⟩ : Hotel)]).map
            Hotel.to_dict)
    ∧ load_entities Hotel.from_dict (create_hotel hf name location total_rooms freshId).2
        = load_entities Hotel.from_dict hf
    ∧ list_hotels (create_hotel hf name location total_rooms freshId).2
        = list_hotels hf
    ∧ (⟨freshId, pystrip name, pystrip location, total_rooms⟩ : Hotel)
        ∉ list_hotels (create_hotel hf name location total_rooms freshId).2
    ∧ (∀ q h, get_hotel (create_hotel hf name location total_rooms freshId).2 q
          = some h → h ≠ ⟨freshId, pystrip name, pystrip location, total_rooms⟩)
    ∧ ((∀ h ∈ load_entities Hotel.from_dict hf, h.hotel_id ≠ freshId) →
        reserve_room (create_hotel hf name location total_rooms freshId).2 rf
          freshId customer_id fresh2 = (.hotelNotFound, rf)) := by
  have hload : load_entities Hotel.from_dict
      (create_hotel hf name location total_rooms freshId).2
      = load_entities Hotel.from_dict hf := by
    show load_entities Hotel.from_dict
        (save_list ((load_entities Hotel.from_dict hf
          ++ [(⟨freshId, pystrip name, pystrip location, total_rooms⟩ : Hotel)]).map
          Hotel.to_dict)) = _
    rw [load_entities_save_append Hotel.from_dict Hotel.to_dict _
      (fun e he => hotel_from_to (mem_load_hotel_valid he))]
    rw [hotel_bad_toOption hbad]
    simp
  refine ⟨rfl, rfl, hload, hload, ?_, ?_, ?_⟩
  · intro hmem
    exact hotel_bad_not_valid hbad (mem_load_hotel_valid hmem)
  · intro q h hg
    intro heq
    have hv := mem_load_hotel_valid (get_hotel_eq_some hg).1
    rw [heq] at hv
    exact hotel_bad_not_valid hbad hv
  · intro hnid
    have hnone : get_hotel (create_hotel hf name location total_rooms freshId).2
        freshId = none := by
      unfold get_hotel
      rw [hload, List.find?_eq_none]
      intro h hm
      simp only [beq_iff_eq, ne_eq]
      exact hnid h hm
    exact reserve_room_hotel_none hnone

/-- C9 witness: creating a hotel with 0 rooms returns and persists the bad
record, but the reloaded collection is unchanged and reserving against the
fresh id fails with hotel-not-found. -/
theorem c9_create_hotel_no_validation_witness :
    (create_hotel hotelsW "BadHotel" "CDMX" 0 "h9").1
      = (⟨"h9", "BadHotel", "CDMX", 0⟩ : Hotel)
    ∧ load_entities Hotel.from_dict (create_hotel hotelsW "BadHotel" "CDMX" 0 "h9").2
        = [hotelW]
    ∧ reserve_room (create_hotel hotelsW "BadHotel" "CDMX" 0 "h9").2
        FileContent.missing "h9" "c1" "r9" = (.hotelNotFound, FileContent.missing) := by
  have h := c9_create_hotel_no_validation hotelsW .missing "BadHotel" "CDMX" 0
    "h9" "c1" "r9" (by decide)
  refine ⟨by decide, ?_, h.2.2.2.2.2.2 (by decide)⟩
  rw [h.2.2.1]
  decide

/-- C1: for a hotel H whose stored room count is N — which no
create/cancel-reservation operation ever touches — starting from any
reservation collection whose active count for H is at most N, the active
count for H still is at most N after any sequence of create_reservation and
cancel_reservation operations. -/
theorem c1_capacity_invariant (st : SysState) (ops : List Op) (H : String) (N : Int)
    (hops : ∀ op ∈ ops, (∃ hid cid f, op = Op.createReservation hid cid f)
      ∨ (∃ rid, op = Op.cancelReservation rid))
    (hH : ∀ h, get_hotel st.hotels H = some h → h.total_rooms = N)
    (h0 : (activeCount H (load_entities Reservation.from_dict
      st.reservations) : Int) ≤ N) :
    (activeCount H (load_entities Reservation.from_dict
      (runOps st ops).reservations) : Int) ≤ N := by
  obtain ⟨hf, cf, rf⟩ := st
  exact runOps_res_count_le hf cf H N hH ops rf hops h0

/-- C1 witness: two consecutive creations against a one-room hotel leave at
most one active reservation for it. -/
theorem c1_capacity_invariant_witness :
    (activeCount "h1" (load_entities Reservation.from_dict
      (runOps ⟨hotelsW, customersW, FileContent.missing⟩
        [Op.createReservation "h1" "c1" "r1",
         Op.createReservation "h1" "c1" "r2"]).reservations) : Int) ≤ 1 := by
  apply c1_capacity_invariant ⟨hotelsW, customersW, FileContent.missing⟩ _ "h1" 1
  · intro op hop
    simp only [List.mem_cons, List.not_mem_nil, or_false] at hop
    rcases hop with rfl | rfl
    · exact Or.inl ⟨"h1", "c1", "r1", rfl⟩
    · exact Or.inl ⟨"h1", "c1", "r2", rfl⟩
  · intro h hh
    have h1 : get_hotel hotelsW "h1" = some hotelW := by decide
    rw [h1] at hh
    injection hh with hh
    rw [← hh]
    decide
  · decide

/-- C4: a cancelled reservation never becomes ACTIVE again under any
operation — reservation creation appends only under a fresh id, cancellation
only turns ACTIVE entries to CANCELLED, and every catalog operation leaves
the reservation file alone; cancelling an already-cancelled reservation
reports failure, and the loaded collection is unchanged by it. -/
theorem c4_cancelled_stays_cancelled (st : SysState) (op : Op) (rid : String)
    (hfresh : Op.resFresh st op)
    (hc : ∀ r ∈ load_entities Reservation.from_dict st.reservations,
      r.reservation_id = rid → r.status = "CANCELLED")
    (hex : ∃ r ∈ load_entities Reservation.from_dict st.reservations,
      r.reservation_id = rid ∧ r.status = "CANCELLED") :
    (∀ r' ∈ load_entities Reservation.from_dict (runOp st op).reservations,
      r'.reservation_id = rid → r'.status = "CANCELLED")
    ∧ (cancel_reservation st.reservations rid).1 = false
    ∧ load_entities Reservation.from_dict (cancel_reservation st.reservations rid).2
        = load_entities Reservation.from_dict st.reservations := by
  have hfail : (cancel_reservation st.reservations rid).1 = false := by
    show ((load_entities Reservation.from_dict st.reservations).map
      (cancelStep rid)).any (·.2) = false
    rw [any_map_pair, List.any_eq_false]
    intro r hr
    rw [cancelStep_snd]
    by_cases hri : r.reservation_id = rid
    · have hcan := hc r hr hri
      have hact : r.is_active = false := by
        unfold Reservation.is_active
        rw [hcan]
        rfl
      rw [hact, Bool.and_false]
      exact Bool.false_ne_true
    · rw [beq_eq_false_iff_ne.mpr hri, Bool.false_and]
      exact Bool.false_ne_true
  refine ⟨?_, hfail, ?_⟩
  · cases op with
    | createHotel n l t f => exact hc
    | deleteHotel hid => exact hc
    | modifyHotel hid n l t => exact hc
    | createCustomer n e f => exact hc
    | deleteCustomer cid => exact hc
    | modifyCustomer cid n e => exact hc
    | createReservation hid cid f =>
      exact create_no_active_id hc hfresh
        (hex.elim fun r hr => ⟨r, hr.1, hr.2.1⟩)
    | cancelReservation rid' => exact cancel_no_active_id hc
  · have hupd := map_fst_eq_of_not_any (fun r hr => cancelStep_snd_false hr) hfail
    rw [cancel_reload, hupd]

/-- C4 witness: with one stored CANCELLED reservation, a creation under a
fresh id leaves no ACTIVE entry with the old id, and re-cancelling the old id
fails with the collection unchanged. -/
theorem c4_cancelled_stays_cancelled_witness :
    (∀ r' ∈ load_entities Reservation.from_dict
        (runOp ⟨hotelsW, customersW, resFileCancelledW⟩
          (Op.createReservation "h1" "c1" "r9")).reservations,
      r'.reservation_id = "r2" → r'.status = "CANCELLED")
    ∧ (cancel_reservation resFileCancelledW "r2").1 = false := by
  have h := c4_cancelled_stays_cancelled ⟨hotelsW, customersW, resFileCancelledW⟩
    (Op.createReservation "h1" "c1" "r9") "r2" (by decide) (by decide)
    ⟨resCancelledW, by decide, rfl, rfl⟩
  exact ⟨h.1, h.2.1⟩

end ResSys
